import Mathlib

/-!
Shallow embedding of `src/src-tauri/src/main.rs` (wine-mac-apps): a Tauri
bootstrap program whose background thread reads lines from a named pipe,
invokes a helper script per line, parses the helper's stdout as JSON, and
creates / reuses Tauri windows, wiring up "mounted" listeners and a
window-event handler reacting to the Destroyed event.

The registry of live windows is the Tauri window manager; it is modelled as
a list of window records.  Event-handler ids (returned by `Window::listen`)
are modelled by a counter.  The helper invocation is an external process,
so its outcome (stderr text, raw stdout text, and the JSON value that
serde_json's syntactic parser yields for that stdout, if any) is an input;
the `#[derive(Deserialize)]` field extraction for `CmdArgs` / `Config` is
modelled faithfully from the struct declarations.  Thread panics coming
from `.expect(..)` / `.unwrap()` are modelled as `Except.error`.
-/

namespace WineApp

/-- `struct Payload { data: String }` in main.rs (the event payload shape). -/
structure Payload where
  data : String
deriving DecidableEq

/-- `struct Config { id: String }` in main.rs. -/
structure Config where
  id : String
deriving DecidableEq

/-- `struct CmdArgs { config: Config, url: String }` in main.rs. -/
structure CmdArgs where
  config : Config
  url : String
deriving DecidableEq

/-- A JSON value, as produced by serde_json's syntactic parser. -/
inductive Json where
  | null : Json
  | bool (b : Bool) : Json
  | num (n : Int) : Json
  | str (s : String) : Json
  | arr (elems : List Json) : Json
  | obj (fields : List (String × Json)) : Json

/-- Field lookup in a JSON object (first field with the given name). -/
def Json.getField : Json → String → Option Json
  | .obj fields, name => (fields.find? (fun p => p.1 == name)).map Prod.snd
  | _, _ => none

/-- Extract a JSON string. -/
def Json.asStr : Json → Option String
  | .str s => some s
  | _ => none

/-- The derived deserializer for `Config`: an object with a string field
    `id` is required. -/
def Config.fromJson (j : Json) : Option Config :=
  ((j.getField "id").bind Json.asStr).map Config.mk

/-- The derived deserializer for `CmdArgs`: an object with a `config`
    sub-object and a string field `url`, both required. -/
def CmdArgs.fromJson (j : Json) : Option CmdArgs :=
  match (j.getField "config").bind Config.fromJson,
        (j.getField "url").bind Json.asStr with
  | some c, some u => some { config := c, url := u }
  | _, _ => none

/-- One "mounted" listener registered via `window.listen("mounted", ..)`:
    its handler id and the captured `cmd_args` string it will emit. -/
structure Listener where
  hid : Nat
  cmdArgs : String
deriving DecidableEq

/-- One live window as held by the Tauri window manager, together with the
    listeners and window-event handlers the program attached to it.  Each
    entry of `destroyHandlers` is one `on_window_event` closure, recorded by
    the mounted-handler id it captured (the id it will `unlisten`). -/
structure Window where
  label : String
  url : String
  mountedListeners : List Listener
  destroyHandlers : List Nat
deriving DecidableEq

/-- The program state visible to the orchestrator: the window manager's
    registry, the next fresh handler id, the console log (println output)
    and the stream of events emitted to windows, as triples
    (window label, event name, payload data). -/
structure Registry where
  windows : List Window
  nextHid : Nat
  log : List String
  emitted : List (String × String × String)
deriving DecidableEq

/-- The registry with no live windows. -/
def regEmpty : Registry :=
  { windows := [], nextHid := 0, log := [], emitted := [] }

/-- `handle.get_window(label)`: the first live window with that label. -/
def Registry.getWindow (st : Registry) (label : String) : Option Window :=
  st.windows.find? (fun w => w.label == label)

/-- `WindowBuilder::new(&handle, label, WindowUrl::App(url)).build()`:
    append a fresh window with no listeners. -/
def Registry.addWindow (st : Registry) (label url : String) : Registry :=
  { st with windows := st.windows ++
      [{ label := label, url := url, mountedListeners := [], destroyHandlers := [] }] }

/-- Update every live window carrying the given label. -/
def Registry.updateWindow (st : Registry) (label : String) (f : Window → Window) :
    Registry :=
  { st with windows := st.windows.map (fun w => if w.label == label then f w else w) }

/-- Outcome of one helper invocation (`Command::new(bin_path).args(..).output()`):
    the stderr text, the raw stdout text, and the JSON value serde_json's
    syntactic parser produces for that stdout (`none` if stdout is not JSON). -/
structure HelperOut where
  stderr : String
  stdoutRaw : String
  stdoutJson : Option Json

/-- A thread panic raised by `.expect(..)` / `.unwrap()` in the listener
    closure of main.rs. -/
inductive Panic where
  | spawnFailed
  | serdeUnwrap
deriving DecidableEq

/-- The tail of each loop iteration in main.rs (lines 67-89), starting from
    the computed `window_id` / `window_url` / `cmd_args` values: create the
    window if `get_window` finds none, register a "mounted" listener that
    captures `cmd_args`, and register an `on_window_event` closure that
    captures the fresh listener id. -/
def withWindow (st : Registry) (wid wurl cargs : String) : Registry :=
  let st1 := if (st.getWindow wid).isSome then st else st.addWindow wid wurl
  let hid := st1.nextHid
  let st2 := st1.updateWindow wid (fun w =>
    { w with mountedListeners := w.mountedListeners ++ [{ hid := hid, cmdArgs := cargs }] })
  let st3 := st2.updateWindow wid (fun w =>
    { w with destroyHandlers := w.destroyHandlers ++ [hid] })
  { st3 with nextHid := st3.nextHid + 1 }

/-- Processing of one pipe line by the `for_each` closure in main.rs
    (lines 45-89).  `none` models `.output()` failing, on which
    `.expect("Failed to execute process")` panics the thread.  With
    non-empty stderr the text is printed and the three locals keep their
    initial empty values; the code then falls through to the window logic.
    With empty stderr, `serde_json::from_str::<CmdArgs>(stdout).unwrap()`
    panics unless the stdout deserializes. -/
def processLine (st : Registry) (inp : Option HelperOut) : Except Panic Registry :=
  match inp with
  | none => .error .spawnFailed
  | some h =>
    if h.stderr ≠ "" then
      .ok (withWindow { st with log := st.log ++ [h.stderr] } "" "" "")
    else
      match h.stdoutJson.bind CmdArgs.fromJson with
      | none => .error .serdeUnwrap
      | some args => .ok (withWindow st args.config.id args.url h.stdoutRaw)

/-- Sequential processing of pipe lines; a panic ends the listener thread,
    so it aborts the whole remainder. -/
def processLines (st : Registry) (inps : List (Option HelperOut)) :
    Except Panic Registry :=
  match inps with
  | [] => .ok st
  | i :: rest =>
    match processLine st i with
    | .ok st1 => processLines st1 rest
    | .error e => .error e

/-- The window fires its "mounted" event: every listener registered on it
    runs, printing "App Mounted" and emitting a "cmd-args" event carrying
    its captured payload (Tauri's `listen` keeps the listener registered
    afterwards). -/
def fireMounted (st : Registry) (wid : String) : Registry :=
  match st.getWindow wid with
  | none => st
  | some w =>
    { st with
      log := st.log ++ w.mountedListeners.map (fun _ => "App Mounted"),
      emitted := st.emitted ++
        w.mountedListeners.map (fun l => (wid, "cmd-args", l.cmdArgs)) }

/-- The window is destroyed: every `on_window_event` closure registered on
    it runs, printing "Window destroyed" and unlistening its captured
    mounted-handler id; the window manager then drops the window. -/
def fireDestroyed (st : Registry) (wid : String) : Registry :=
  match st.getWindow wid with
  | none => st
  | some w =>
    { st with
      windows := st.windows.filter (fun w2 => !(w2.label == wid)),
      log := st.log ++ w.destroyHandlers.map (fun _ => "Window destroyed") }

/-- A helper outcome is well-formed for window id `wid` when stderr is
    empty and the stdout deserializes to a `CmdArgs` whose `config.id`
    is `wid`. -/
def goodLine (wid : String) (h : HelperOut) : Prop :=
  h.stderr = "" ∧ ∃ c : CmdArgs,
    h.stdoutJson.bind CmdArgs.fromJson = some c ∧ c.config.id = wid

/-- A helper stdout JSON value carrying the required id and url fields. -/
def jsonFor (i u : String) : Json :=
  Json.obj [("config", Json.obj [("id", Json.str i)]), ("url", Json.str u)]

/-- A successful helper invocation outcome for window `i`, navigation
    target `u`, raw stdout text `raw`. -/
def helperOk (i u raw : String) : HelperOut :=
  { stderr := "", stdoutRaw := raw, stdoutJson := some (jsonFor i u) }

/-- A helper invocation that reported an error on stderr. -/
def hBoom : HelperOut := { stderr := "boom", stdoutRaw := "", stdoutJson := none }

/-- A helper invocation with empty stderr whose stdout is not JSON. -/
def hMalformed : HelperOut :=
  { stderr := "", stdoutRaw := "nonsense", stdoutJson := none }

/-- A helper stdout that parses as JSON but lacks the url field. -/
def jNoUrl : Json := Json.obj [("config", Json.obj [("id", Json.str "w8")])]

/-- Another helper stdout lacking the url field (extra field present). -/
def jNoUrl2 : Json :=
  Json.obj [("config", Json.obj [("id", Json.str "w8b")]), ("k", Json.num 1)]

/-- A concrete window record used to instantiate general statements. -/
def winOne : Window :=
  { label := "w1", url := "/foo",
    mountedListeners := [{ hid := 0, cmdArgs := "raw1" }], destroyHandlers := [0] }

/-- A concrete registry holding exactly the window `winOne`. -/
def stOne : Registry :=
  { windows := [winOne], nextHid := 1, log := [], emitted := [] }

/-- Outcome of the shutdown notification: the control pipe contents, the
    log, and whether shutdown proceeds. -/
structure ShutdownResult where
  pipeAfter : List String
  logAfter : List String
  shutdownProceeds : Bool
deriving DecidableEq

/-- Modelled from the spec: the Shutdown Notifier is not among the files
    under src/ (only the orchestrator variant src/src-tauri/src/main.rs is
    provided, and it registers no exit handler).  Per the spec (sections
    4.5 and 6), on receipt of the application-exit-requested signal it
    writes the single sentinel line, the literal "quit", into the
    well-known control pipe path; a failure of this write is logged and
    does not block shutdown (fire-and-forget).  `writeOk` is whether the
    pipe write succeeds. -/
def shutdownNotifier (writeOk : Bool) (pipe lg : List String) : ShutdownResult :=
  if writeOk then
    { pipeAfter := pipe ++ ["quit"], logAfter := lg, shutdownProceeds := true }
  else
    { pipeAfter := pipe, logAfter := lg ++ ["failed to write quit sentinel"],
      shutdownProceeds := true }

theorem find?_update_of_some (l : List Window) (wid : String) (f : Window → Window)
    (hf : ∀ x, (f x).label = x.label) (w : Window)
    (h : l.find? (fun x => x.label == wid) = some w) :
    (l.map (fun x => if x.label == wid then f x else x)).find?
        (fun x => x.label == wid) = some (f w) := by
  induction l with
  | nil => simp at h
  | cons a as ih =>
    cases ha : a.label == wid with
    | true =>
      simp only [List.find?_cons, ha] at h
      cases h
      simp only [List.map_cons, if_pos ha, List.find?_cons, hf, ha]
      simp [hf, ha]
    | false =>
      simp only [List.find?_cons, ha] at h
      simp only [List.map_cons, ha, Bool.false_eq_true, if_false, List.find?_cons]
      exact ih h

theorem map_update_of_find?_none {α : Type} (l : List α) (p : α → Bool) (f : α → α)
    (h : l.find? p = none) :
    l.map (fun x => if p x then f x else x) = l := by
  induction l with
  | nil => rfl
  | cons a as ih =>
    rw [List.find?_eq_none] at h
    have ha : ¬ p a = true := h a (by simp)
    have has : as.find? p = none :=
      List.find?_eq_none.mpr (fun x hx => h x (by simp [hx]))
    simp only [List.map_cons, if_neg ha, ih has]

theorem filter_eq_nil_of_find?_none {α : Type} (l : List α) (p : α → Bool)
    (h : l.find? p = none) : l.filter p = [] := by
  rw [List.find?_eq_none] at h
  induction l with
  | nil => rfl
  | cons a as ih =>
    have ha : ¬ p a = true := h a (by simp)
    simp only [List.filter_cons, if_neg ha]
    exact ih (fun x hx => h x (by simp [hx]))

theorem find?_filter_not {α : Type} (l : List α) (p : α → Bool) :
    (l.filter (fun x => !(p x))).find? p = none := by
  rw [List.find?_eq_none]
  intro x hx
  have hm := List.of_mem_filter hx
  simp only [Bool.not_eq_true'] at hm
  simp [hm]

theorem map_label_update (l : List Window) (wid : String) (f : Window → Window)
    (hf : ∀ x, (f x).label = x.label) :
    (l.map (fun x => if x.label == wid then f x else x)).map Window.label
      = l.map Window.label := by
  induction l with
  | nil => rfl
  | cons a as ih =>
    simp only [List.map_cons, ih]
    by_cases ha : (a.label == wid) = true
    · rw [if_pos ha, hf]
    · rw [if_neg ha]

theorem withWindow_log (st : Registry) (wid u a : String) :
    (withWindow st wid u a).log = st.log := by
  by_cases h : (st.getWindow wid).isSome = true <;>
    simp [withWindow, Registry.addWindow, Registry.updateWindow, h]

theorem withWindow_emitted (st : Registry) (wid u a : String) :
    (withWindow st wid u a).emitted = st.emitted := by
  by_cases h : (st.getWindow wid).isSome = true <;>
    simp [withWindow, Registry.addWindow, Registry.updateWindow, h]

theorem withWindow_nextHid (st : Registry) (wid u a : String) :
    (withWindow st wid u a).nextHid = st.nextHid + 1 := by
  by_cases h : (st.getWindow wid).isSome = true <;>
    simp [withWindow, Registry.addWindow, Registry.updateWindow, h]

theorem withWindow_windows_some (st : Registry) (wid u a : String)
    (hs : (st.getWindow wid).isSome = true) :
    (withWindow st wid u a).windows
      = (st.windows.map (fun x =>
          if x.label == wid then
            { x with mountedListeners :=
                x.mountedListeners ++ [{ hid := st.nextHid, cmdArgs := a }] }
          else x)).map (fun x =>
          if x.label == wid then
            { x with destroyHandlers := x.destroyHandlers ++ [st.nextHid] }
          else x) := by
  simp only [withWindow, Registry.updateWindow]
  rw [if_pos hs]

theorem withWindow_getWindow_some (st : Registry) (wid u a : String) (w : Window)
    (h : st.getWindow wid = some w) :
    (withWindow st wid u a).getWindow wid
      = some { w with
               mountedListeners :=
                 w.mountedListeners ++ [{ hid := st.nextHid, cmdArgs := a }],
               destroyHandlers := w.destroyHandlers ++ [st.nextHid] } := by
  have h0 : st.windows.find? (fun x => x.label == wid) = some w := h
  have h1 := find?_update_of_some st.windows wid
    (fun x => { x with mountedListeners :=
        x.mountedListeners ++ [{ hid := st.nextHid, cmdArgs := a }] })
    (fun _ => rfl) w h0
  have h2 := find?_update_of_some _ wid
    (fun x => { x with destroyHandlers := x.destroyHandlers ++ [st.nextHid] })
    (fun _ => rfl) _ h1
  have hs : (st.getWindow wid).isSome = true := by rw [h]; rfl
  show (withWindow st wid u a).windows.find? (fun x => x.label == wid) = _
  rw [withWindow_windows_some st wid u a hs]
  exact h2

theorem withWindow_labels_some (st : Registry) (wid u a : String) (w : Window)
    (h : st.getWindow wid = some w) :
    (withWindow st wid u a).windows.map Window.label
      = st.windows.map Window.label := by
  have hs : (st.getWindow wid).isSome = true := by rw [h]; rfl
  rw [withWindow_windows_some st wid u a hs]
  rw [map_label_update _ wid
    (fun x => { x with destroyHandlers := x.destroyHandlers ++ [st.nextHid] })
    (fun _ => rfl)]
  rw [map_label_update st.windows wid
    (fun x => { x with mountedListeners :=
        x.mountedListeners ++ [{ hid := st.nextHid, cmdArgs := a }] })
    (fun _ => rfl)]

theorem withWindow_windows_none (st : Registry) (wid u a : String)
    (h : st.getWindow wid = none) :
    (withWindow st wid u a).windows
      = st.windows ++ [{ label := wid, url := u,
                         mountedListeners := [{ hid := st.nextHid, cmdArgs := a }],
                         destroyHandlers := [st.nextHid] }] := by
  have h0 : st.windows.find? (fun x => x.label == wid) = none := h
  have hs : (st.getWindow wid).isSome = false := by rw [h]; rfl
  simp only [withWindow, Registry.addWindow, Registry.updateWindow]
  rw [if_neg (by simp [hs])]
  simp only [List.map_append,
    map_update_of_find?_none _ _ _ h0, List.map_cons, List.map_nil]
  simp

theorem withWindow_getWindow_none (st : Registry) (wid u a : String)
    (h : st.getWindow wid = none) :
    (withWindow st wid u a).getWindow wid
      = some { label := wid, url := u,
               mountedListeners := [{ hid := st.nextHid, cmdArgs := a }],
               destroyHandlers := [st.nextHid] } := by
  have h0 : st.windows.find? (fun x => x.label == wid) = none := h
  have hw := withWindow_windows_none st wid u a h
  show (withWindow st wid u a).windows.find? (fun x => x.label == wid) = _
  rw [hw, List.find?_append, h0]
  simp [List.find?_cons]

theorem processLine_good (st : Registry) (h : HelperOut) (c : CmdArgs)
    (h1 : h.stderr = "") (h2 : h.stdoutJson.bind CmdArgs.fromJson = some c) :
    processLine st (some h) = .ok (withWindow st c.config.id c.url h.stdoutRaw) := by
  simp [processLine, h1, h2]

theorem processLine_stderr (st : Registry) (h : HelperOut) (h1 : h.stderr ≠ "") :
    processLine st (some h)
      = .ok (withWindow { st with log := st.log ++ [h.stderr] } "" "" "") := by
  simp [processLine, h1]

theorem fireMounted_some (st : Registry) (wid : String) (w : Window)
    (h : st.getWindow wid = some w) :
    fireMounted st wid = { st with
      log := st.log ++ w.mountedListeners.map (fun _ => "App Mounted"),
      emitted := st.emitted ++
        w.mountedListeners.map (fun l => (wid, "cmd-args", l.cmdArgs)) } := by
  simp [fireMounted, h]

theorem fireMounted_windows (st : Registry) (wid : String) :
    (fireMounted st wid).windows = st.windows := by
  cases hm : st.getWindow wid <;> simp [fireMounted, hm]

theorem fireMounted_getWindow (st : Registry) (wid wid2 : String) :
    (fireMounted st wid).getWindow wid2 = st.getWindow wid2 := by
  simp [Registry.getWindow, fireMounted_windows]

theorem fireDestroyed_getWindow (st : Registry) (wid : String) :
    (fireDestroyed st wid).getWindow wid = none := by
  cases hm : st.getWindow wid with
  | none =>
    have he : fireDestroyed st wid = st := by
      unfold fireDestroyed
      rw [hm]
    rw [he]
    exact hm
  | some w =>
    have hw : (fireDestroyed st wid).windows
        = st.windows.filter (fun w2 => !(w2.label == wid)) := by
      unfold fireDestroyed
      rw [hm]
    show (fireDestroyed st wid).windows.find? (fun x => x.label == wid) = none
    rw [hw]
    exact find?_filter_not st.windows (fun x => x.label == wid)

theorem processLines_good (wid : String) (hs : List HelperOut) :
    ∀ st : Registry, ∀ w : Window, st.getWindow wid = some w →
    (∀ h ∈ hs, goodLine wid h) →
    ∃ st2 : Registry, ∃ w2 : Window,
      processLines st (hs.map some) = .ok st2
      ∧ st2.getWindow wid = some w2
      ∧ w2.mountedListeners.map Listener.cmdArgs
          = w.mountedListeners.map Listener.cmdArgs ++ hs.map HelperOut.stdoutRaw
      ∧ st2.emitted = st.emitted := by
  induction hs with
  | nil =>
    intro st w hw _
    exact ⟨st, w, rfl, hw, by simp, rfl⟩
  | cons h rest ih =>
    intro st w hw hg
    obtain ⟨h1, c, h2, hcid⟩ := hg h (List.mem_cons_self h rest)
    have hpl := processLine_good st h c h1 h2
    rw [hcid] at hpl
    have hgw := withWindow_getWindow_some st wid c.url h.stdoutRaw w hw
    obtain ⟨st2, w2, hrun, hw2, hmap, hemit⟩ :=
      ih (withWindow st wid c.url h.stdoutRaw)
        { w with
          mountedListeners :=
            w.mountedListeners ++ [{ hid := st.nextHid, cmdArgs := h.stdoutRaw }],
          destroyHandlers := w.destroyHandlers ++ [st.nextHid] }
        hgw (fun x hx => hg x (List.mem_cons_of_mem h hx))
    refine ⟨st2, w2, ?_, hw2, ?_, ?_⟩
    · simp only [List.map_cons, processLines, hpl]
      exact hrun
    · rw [hmap]
      simp [List.append_assoc]
    · rw [hemit, withWindow_emitted]

/-- C1 counterexample: on a line whose helper reports stderr "boom", the
    registry does NOT stay identical: starting from the empty registry, a
    window labeled "" (with empty url, one listener carrying the empty
    payload, one destroy handler) has been created, because the code only
    prints stderr and then falls through to the window logic with the
    initial empty `window_id`. -/
theorem spec_c1_counterexample :
    regEmpty.windows = []
    ∧ (processLine regEmpty (some hBoom)).map Registry.windows
        = .ok [{ label := "", url := "",
                 mountedListeners := [{ hid := 0, cmdArgs := "" }],
                 destroyHandlers := [0] }] :=
  ⟨rfl, rfl⟩

/-- C1 (amended): for every pipe line whose helper invocation produces
    non-empty stderr, the stderr text is appended to the log channel, but
    processing still falls through to the window logic with the empty
    `window_id`, url and payload, so the registry can be mutated (the
    window labeled "" is created on first occurrence and gains a fresh
    listener every time). -/
theorem spec_c1_amended (st : Registry) (h : HelperOut) (he : h.stderr ≠ "") :
    processLine st (some h)
      = .ok (withWindow { st with log := st.log ++ [h.stderr] } "" "" "")
    ∧ ∀ st2 : Registry, processLine st (some h) = .ok st2 →
        st2.log = st.log ++ [h.stderr] := by
  refine ⟨processLine_stderr st h he, ?_⟩
  intro st2 h2
  rw [processLine_stderr st h he] at h2
  injection h2 with h3
  rw [← h3, withWindow_log]

/-- C1 witness: the amended statement at the concrete erroring line. -/
theorem spec_c1_witness :
    processLine regEmpty (some hBoom)
      = .ok (withWindow { regEmpty with log := regEmpty.log ++ ["boom"] } "" "" "")
    ∧ (withWindow { regEmpty with log := regEmpty.log ++ ["boom"] } "" "" "").log
        = regEmpty.log ++ ["boom"] :=
  ⟨(spec_c1_amended regEmpty hBoom (by decide)).1,
   (spec_c1_amended regEmpty hBoom (by decide)).2
     (withWindow { regEmpty with log := regEmpty.log ++ ["boom"] } "" "" "")
     (spec_c1_amended regEmpty hBoom (by decide)).1⟩

/-- C2 counterexample: after one well-formed line creating window "w1",
    firing the "mounted" signal twice forwards the payload twice (one
    "cmd-args" event per firing), because `listen` keeps the listener
    registered; the claim's at-most-once delivery is false. -/
theorem spec_c2_counterexample :
    (processLine regEmpty (some (helperOk "w1" "/foo" "raw1"))).map
        (fun st2 => (fireMounted (fireMounted st2 "w1") "w1").emitted)
      = .ok [("w1", "cmd-args", "raw1"), ("w1", "cmd-args", "raw1")] :=
  rfl

/-- C2 (amended): every firing of "mounted" forwards the payload once per
    registered listener, and the listeners stay registered, so a second
    firing forwards all payloads again (delivery is per-firing, not
    at-most-once per window lifetime). -/
theorem spec_c2_amended (st : Registry) (wid : String) (w : Window)
    (h : st.getWindow wid = some w) :
    (fireMounted st wid).emitted
      = st.emitted ++ w.mountedListeners.map (fun l => (wid, "cmd-args", l.cmdArgs))
    ∧ (fireMounted (fireMounted st wid) wid).emitted
      = st.emitted ++ w.mountedListeners.map (fun l => (wid, "cmd-args", l.cmdArgs))
        ++ w.mountedListeners.map (fun l => (wid, "cmd-args", l.cmdArgs)) := by
  have h2 : (fireMounted st wid).getWindow wid = some w := by
    rw [fireMounted_getWindow]
    exact h
  constructor
  · rw [fireMounted_some st wid w h]
  · rw [fireMounted_some (fireMounted st wid) wid w h2, fireMounted_some st wid w h]

/-- C2 witness: the amended statement at a concrete one-window registry. -/
theorem spec_c2_witness :
    (fireMounted stOne "w1").emitted
      = stOne.emitted
        ++ winOne.mountedListeners.map (fun l => ("w1", "cmd-args", l.cmdArgs))
    ∧ (fireMounted (fireMounted stOne "w1") "w1").emitted
      = stOne.emitted
        ++ winOne.mountedListeners.map (fun l => ("w1", "cmd-args", l.cmdArgs))
        ++ winOne.mountedListeners.map (fun l => ("w1", "cmd-args", l.cmdArgs)) :=
  spec_c2_amended stOne "w1" winOne rfl

/-- C3 counterexample: two consecutive lines both resolving to "w2" leave a
    single window (creation is indeed idempotent) but the second line does
    NOT only re-attach the ready subscription: it also attaches a second
    destroyed-event handler (handler ids [0, 1] where one handler would
    remain if only the ready subscription were touched). -/
theorem spec_c3_counterexample :
    (processLines regEmpty
        [some (helperOk "w2" "/a" "r1"), some (helperOk "w2" "/b" "r2")]).map
        (fun st2 => st2.windows.map (fun w => (w.label, w.destroyHandlers)))
      = .ok [("w2", [0, 1])] :=
  rfl

/-- C3 (amended): for every pipe line whose directive resolves to an
    already-live window id, no new window is created (the label multiset is
    unchanged), and the existing window gains one additional "mounted"
    listener AND one additional destroyed-event handler (earlier ones are
    kept, nothing is replaced). -/
theorem spec_c3_amended (st : Registry) (h : HelperOut) (c : CmdArgs) (w : Window)
    (h1 : h.stderr = "") (h2 : h.stdoutJson.bind CmdArgs.fromJson = some c)
    (h3 : st.getWindow c.config.id = some w) :
    (processLine st (some h)).map (fun st2 =>
        (st2.windows.map Window.label, st2.getWindow c.config.id))
      = .ok (st.windows.map Window.label,
             some { w with
                    mountedListeners :=
                      w.mountedListeners ++ [{ hid := st.nextHid, cmdArgs := h.stdoutRaw }],
                    destroyHandlers := w.destroyHandlers ++ [st.nextHid] }) := by
  rw [processLine_good st h c h1 h2]
  simp only [Except.map]
  rw [withWindow_labels_some st c.config.id c.url h.stdoutRaw w h3,
      withWindow_getWindow_some st c.config.id c.url h.stdoutRaw w h3]

/-- C3 witness: the amended statement at a concrete repeated-id line. -/
theorem spec_c3_witness :
    (processLine stOne (some (helperOk "w1" "/bar" "raw2"))).map (fun st2 =>
        (st2.windows.map Window.label, st2.getWindow "w1"))
      = .ok (stOne.windows.map Window.label,
             some { winOne with
                    mountedListeners :=
                      winOne.mountedListeners ++ [{ hid := stOne.nextHid, cmdArgs := "raw2" }],
                    destroyHandlers := winOne.destroyHandlers ++ [stOne.nextHid] }) :=
  spec_c3_amended stOne (helperOk "w1" "/bar" "raw2")
    { config := { id := "w1" }, url := "/bar" } winOne rfl rfl rfl

/-- C4: for every well-formed pipe line whose directive carries a window id
    not yet in the registry, processing creates exactly one window carrying
    the directive's navigation target, and afterwards exactly one record
    exists for that id. -/
theorem spec_c4_fresh_creates_one (st : Registry) (h : HelperOut) (c : CmdArgs)
    (h1 : h.stderr = "") (h2 : h.stdoutJson.bind CmdArgs.fromJson = some c)
    (h3 : st.getWindow c.config.id = none) :
    (processLine st (some h)).map (fun st2 =>
        (st2.windows.length,
         (st2.windows.filter (fun w => w.label == c.config.id)).length,
         st2.getWindow c.config.id))
      = .ok (st.windows.length + 1, 1,
             some { label := c.config.id, url := c.url,
                    mountedListeners := [{ hid := st.nextHid, cmdArgs := h.stdoutRaw }],
                    destroyHandlers := [st.nextHid] }) := by
  have h0 : st.windows.find? (fun x => x.label == c.config.id) = none := h3
  rw [processLine_good st h c h1 h2]
  simp only [Except.map]
  rw [withWindow_windows_none st c.config.id c.url h.stdoutRaw h3,
      withWindow_getWindow_none st c.config.id c.url h.stdoutRaw h3]
  rw [List.length_append, List.filter_append, filter_eq_nil_of_find?_none _ _ h0]
  simp

/-- C4 witness: the fresh-creation statement at a concrete line. -/
theorem spec_c4_witness :
    (processLine regEmpty (some (helperOk "w1" "/foo" "raw1"))).map (fun st2 =>
        (st2.windows.length,
         (st2.windows.filter (fun w => w.label == "w1")).length,
         st2.getWindow "w1"))
      = .ok (regEmpty.windows.length + 1, 1,
             some { label := "w1", url := "/foo",
                    mountedListeners := [{ hid := regEmpty.nextHid, cmdArgs := "raw1" }],
                    destroyHandlers := [regEmpty.nextHid] }) :=
  spec_c4_fresh_creates_one regEmpty (helperOk "w1" "/foo" "raw1")
    { config := { id := "w1" }, url := "/foo" } rfl rfl rfl

/-- C5 counterexample: a line with empty stderr whose stdout is the JSON
    number 42 (well-formed JSON, but not the expected structure) makes the
    `unwrap` on serde deserialization panic: the listener thread dies and
    the following well-formed line is never processed, contradicting the
    claimed recoverable logged-and-continue behavior. -/
theorem spec_c5_counterexample :
    processLines regEmpty
        [some { stderr := "", stdoutRaw := "42", stdoutJson := some (Json.num 42) },
         some (helperOk "w6" "/y" "r6")]
      = .error .serdeUnwrap :=
  rfl

/-- C5 (amended): for every helper invocation with empty stderr whose
    stdout fails to deserialize as `CmdArgs`, the `unwrap` panics:
    processing of that line and of every later line stops (no window
    mutation occurs, but nothing is logged and processing does not
    continue). -/
theorem spec_c5_amended (st : Registry) (h : HelperOut)
    (h1 : h.stderr = "") (h2 : h.stdoutJson.bind CmdArgs.fromJson = none) :
    processLine st (some h) = .error .serdeUnwrap
    ∧ ∀ rest : List (Option HelperOut),
        processLines st (some h :: rest) = .error .serdeUnwrap := by
  have hp : processLine st (some h) = .error .serdeUnwrap := by
    simp [processLine, h1, h2]
  refine ⟨hp, fun rest => ?_⟩
  simp [processLines, hp]

/-- C5 witness: the amended statement at a concrete malformed line. -/
theorem spec_c5_witness :
    processLine regEmpty (some hMalformed) = .error .serdeUnwrap
    ∧ processLines regEmpty [some hMalformed, some (helperOk "w5" "/x" "r5")]
      = .error .serdeUnwrap :=
  ⟨(spec_c5_amended regEmpty hMalformed rfl rfl).1,
   (spec_c5_amended regEmpty hMalformed rfl rfl).2 [some (helperOk "w5" "/x" "r5")]⟩

/-- C6 counterexample: the destroyed subscription is NOT attached exactly
    once at record-creation time: two lines addressing "w3" leave two
    destroyed-event handlers on its window record (`on_window_event` runs
    on every processed line). -/
theorem spec_c6_counterexample :
    (processLines regEmpty
        [some (helperOk "w3" "/a" "r1"), some (helperOk "w3" "/b" "r2")]).map
        (fun st2 => (st2.getWindow "w3").map (fun w => w.destroyHandlers.length))
      = .ok (some 2) :=
  rfl

/-- C6 (amended): a destroyed-event handler is attached on EVERY processed
    line addressing the window (each capturing that line's mounted-handler
    id), not only at creation time; when the destroyed event fires, the
    handlers unlisten their captured ids and the window record is removed
    from the registry, whether or not "mounted" had fired. -/
theorem spec_c6_amended (st : Registry) (h : HelperOut) (c : CmdArgs) (w : Window)
    (h1 : h.stderr = "") (h2 : h.stdoutJson.bind CmdArgs.fromJson = some c)
    (h3 : st.getWindow c.config.id = some w) :
    (processLine st (some h)).map (fun st2 =>
        (st2.getWindow c.config.id).map Window.destroyHandlers)
      = .ok (some (w.destroyHandlers ++ [st.nextHid]))
    ∧ ∀ st3 : Registry,
        (fireDestroyed st3 c.config.id).getWindow c.config.id = none
        ∧ (fireDestroyed (fireMounted st3 c.config.id) c.config.id).getWindow
            c.config.id = none := by
  constructor
  · rw [processLine_good st h c h1 h2]
    simp only [Except.map]
    rw [withWindow_getWindow_some st c.config.id c.url h.stdoutRaw w h3]
    rfl
  · intro st3
    exact ⟨fireDestroyed_getWindow st3 c.config.id,
           fireDestroyed_getWindow (fireMounted st3 c.config.id) c.config.id⟩

/-- C6 witness: the amended statement at a concrete repeated-id line and a
    concrete registry, destroyed both before and after a mounted firing. -/
theorem spec_c6_witness :
    (processLine stOne (some (helperOk "w1" "/z" "raw3"))).map (fun st2 =>
        (st2.getWindow "w1").map Window.destroyHandlers)
      = .ok (some (winOne.destroyHandlers ++ [stOne.nextHid]))
    ∧ (fireDestroyed stOne "w1").getWindow "w1" = none
    ∧ (fireDestroyed (fireMounted stOne "w1") "w1").getWindow "w1" = none :=
  ⟨(spec_c6_amended stOne (helperOk "w1" "/z" "raw3")
      { config := { id := "w1" }, url := "/z" } winOne rfl rfl rfl).1,
   ((spec_c6_amended stOne (helperOk "w1" "/z" "raw3")
      { config := { id := "w1" }, url := "/z" } winOne rfl rfl rfl).2 stOne).1,
   ((spec_c6_amended stOne (helperOk "w1" "/z" "raw3")
      { config := { id := "w1" }, url := "/z" } winOne rfl rfl rfl).2 stOne).2⟩

/-- C7 counterexample: when the helper process for the first line cannot be
    spawned, `.expect("Failed to execute process")` panics the listener
    thread, so the following well-formed line is never processed — the
    claimed logged-and-continue behavior is false. -/
theorem spec_c7_counterexample :
    processLines regEmpty [none, some (helperOk "w7" "/q" "r7")]
      = .error .spawnFailed :=
  rfl

/-- C7 (amended): for every pipe line for which the helper process cannot
    be spawned, the `expect` panics the listener thread: the command is
    dropped, nothing is logged through the program's log channel, and no
    further line of the pipe is processed (the listener terminates). -/
theorem spec_c7_amended (st : Registry) (rest : List (Option HelperOut)) :
    processLine st none = .error .spawnFailed
    ∧ processLines st (none :: rest) = .error .spawnFailed :=
  ⟨rfl, rfl⟩

/-- C8 counterexample: a helper stdout that is well-formed JSON containing
    `config.id` but no url field does NOT yield a valid directive: the
    derived deserializer requires `url`, so deserialization returns none
    and the `unwrap` panics instead of defaulting to a root target. -/
theorem spec_c8_counterexample :
    CmdArgs.fromJson jNoUrl = none
    ∧ processLine regEmpty
        (some { stderr := "", stdoutRaw := "id only", stdoutJson := some jNoUrl })
      = .error .serdeUnwrap :=
  ⟨rfl, rfl⟩

/-- C8 (amended): the navigation target is NOT optional: `CmdArgs` derives
    a deserializer whose `url` field is required, so any helper stdout JSON
    lacking a url field fails to deserialize and the listener thread panics
    on the `unwrap`; no window is created and no root default exists. -/
theorem spec_c8_amended (st : Registry) (h : HelperOut) (j : Json)
    (h1 : h.stderr = "") (h2 : h.stdoutJson = some j)
    (h3 : j.getField "url" = none) :
    CmdArgs.fromJson j = none ∧ processLine st (some h) = .error .serdeUnwrap := by
  have hj : CmdArgs.fromJson j = none := by
    unfold CmdArgs.fromJson
    rw [h3]
    cases (j.getField "config").bind Config.fromJson <;> rfl
  refine ⟨hj, ?_⟩
  simp [processLine, h1, h2, hj]

/-- C8 witness: the amended statement at a concrete url-less stdout. -/
theorem spec_c8_witness :
    CmdArgs.fromJson jNoUrl2 = none
    ∧ processLine regEmpty
        (some { stderr := "", stdoutRaw := "cfg", stdoutJson := some jNoUrl2 })
      = .error .serdeUnwrap :=
  spec_c8_amended regEmpty
    { stderr := "", stdoutRaw := "cfg", stdoutJson := some jNoUrl2 } jNoUrl2 rfl rfl rfl

/-- C9: on the application-exit-requested signal the Shutdown Notifier
    appends exactly the single sentinel line "quit" to the control pipe
    when the write succeeds; a failed write only logs and in both cases
    shutdown proceeds. -/
theorem spec_c9_quit_sentinel (pipe lg : List String) :
    (shutdownNotifier true pipe lg).pipeAfter = pipe ++ ["quit"]
    ∧ (shutdownNotifier true pipe lg).logAfter = lg
    ∧ (shutdownNotifier true pipe lg).shutdownProceeds = true
    ∧ (shutdownNotifier false pipe lg).pipeAfter = pipe
    ∧ (shutdownNotifier false pipe lg).logAfter
        = lg ++ ["failed to write quit sentinel"]
    ∧ (shutdownNotifier false pipe lg).shutdownProceeds = true :=
  ⟨rfl, rfl, rfl, rfl, rfl, rfl⟩

/-- C10: starting from a registry without the window, processing n
    well-formed directives that all resolve to the same window id
    accumulates one "mounted" listener per directive (none is removed), so
    a single firing of "mounted" emits exactly one "cmd-args" event per
    directive, carrying each directive's raw stdout payload in order. -/
theorem spec_c10_listener_accumulation (st : Registry) (wid : String)
    (h0 : HelperOut) (rest : List HelperOut)
    (hw : st.getWindow wid = none)
    (hg0 : goodLine wid h0) (hg : ∀ h ∈ rest, goodLine wid h) :
    (processLines st ((h0 :: rest).map some)).map
        (fun st2 => (fireMounted st2 wid).emitted)
      = .ok (st.emitted ++ (h0 :: rest).map (fun h => (wid, "cmd-args", h.stdoutRaw))) := by
  obtain ⟨h1, c, h2, hcid⟩ := hg0
  have hpl := processLine_good st h0 c h1 h2
  rw [hcid] at hpl
  have hgw := withWindow_getWindow_none st wid c.url h0.stdoutRaw hw
  obtain ⟨st2, w2, hrun, hw2, hmap, hemit⟩ :=
    processLines_good wid rest (withWindow st wid c.url h0.stdoutRaw)
      { label := wid, url := c.url,
        mountedListeners := [{ hid := st.nextHid, cmdArgs := h0.stdoutRaw }],
        destroyHandlers := [st.nextHid] } hgw hg
  simp only [List.map_cons, processLines, hpl, hrun, Except.map]
  rw [fireMounted_some st2 wid w2 hw2]
  have hcomp : w2.mountedListeners.map (fun l => (wid, "cmd-args", l.cmdArgs))
      = (w2.mountedListeners.map Listener.cmdArgs).map (fun s => (wid, "cmd-args", s)) := by
    rw [List.map_map]
    rfl
  show Except.ok (st2.emitted ++ w2.mountedListeners.map (fun l => (wid, "cmd-args", l.cmdArgs)))
      = Except.ok (st.emitted ++ ((wid, "cmd-args", h0.stdoutRaw)
          :: rest.map (fun h => (wid, "cmd-args", h.stdoutRaw))))
  rw [hcomp, hmap, hemit, withWindow_emitted]
  simp [List.map_map]

/-- C10 witness: the accumulation statement at two concrete directives for
    the same fresh window id. -/
theorem spec_c10_witness :
    (processLines regEmpty ((helperOk "w4" "/a" "ra" :: [helperOk "w4" "/b" "rb"]).map some)).map
        (fun st2 => (fireMounted st2 "w4").emitted)
      = .ok (regEmpty.emitted
          ++ (helperOk "w4" "/a" "ra" :: [helperOk "w4" "/b" "rb"]).map
              (fun h => ("w4", "cmd-args", h.stdoutRaw))) :=
  spec_c10_listener_accumulation regEmpty "w4" (helperOk "w4" "/a" "ra")
    [helperOk "w4" "/b" "rb"] rfl
    ⟨rfl, { config := { id := "w4" }, url := "/a" }, rfl, rfl⟩
    (fun h hh => by
      rw [List.mem_singleton] at hh
      subst hh
      exact ⟨rfl, { config := { id := "w4" }, url := "/b" }, rfl, rfl⟩)

end WineApp
